import Mathlib

/-!
AutoSQL frontend — verification of the query-result presentation layer

Shallow embedding of the stateful client logic of the AutoSQL frontend
(`sql-ide-layout.tsx` and the `QueryExecutionResults` / `TableDisplay`
components) and proofs about the behaviour of its event handlers.

JavaScript conventions are modelled explicitly:
* `null` / `undefined` cell values are `Option` `none`;
* the `x || d` falsy-default idiom on strings is `jsOr` (empty string is falsy);
* `Array.prototype.slice`, `join`, `String.prototype.split` are `jsSlice`,
  `jsJoin`, `jsSplit` on lists;
* `Date.now()` and `Math.random().toString(36).substr(2, 9)` are passed in as
  explicit parameters (`now : Nat`, `rand : String`);
* an `async` call that may throw is an explicit `Except String` outcome
  parameter, and a handler is a pure function from the pre-state and the
  outcomes of the backend calls it makes to the post-state.
-/

namespace AutoSQL

/-- JS falsy-default `x || d` for an optional string: `null`/`undefined` and
the empty string both fall back to the default. -/
def jsOr (x : Option String) (d : String) : String :=
  match x with
  | none => d
  | some s => if s = "" then d else s

/-- Decimal digits of a natural number, most significant first: the rendering
used by a JS template literal for an integer (embedding of the plain-`Nat`
part of a string interpolation such as the one building tab ids). -/
def natToDigits (n : Nat) : List Char :=
  if _h : n < 10 then [Nat.digitChar n]
  else natToDigits (n / 10) ++ [Nat.digitChar (n % 10)]
decreasing_by
  exact Nat.div_lt_self (by omega) (by omega)

/-- Decimal string of a natural number (as a JS template literal renders it). -/
def natToString (n : Nat) : String := ⟨natToDigits n⟩

/-- Embedding of `Array.prototype.slice(start, stop)`. -/
def jsSlice (l : List α) (start stop : Nat) : List α :=
  (l.drop start).take (stop - start)

/-- Embedding of `Array.prototype.join(sep)` for a single-character separator (fields are
already strings, modelled as character lists). -/
def jsJoin (sep : Char) : List (List Char) → List Char
  | [] => []
  | [f] => f
  | f :: rest => f ++ sep :: jsJoin sep rest

/-- Embedding of `String.prototype.split(sep)` for a single-character separator. -/
def jsSplit (sep : Char) : List Char → List (List Char)
  | [] => [[]]
  | c :: cs =>
    let rest := jsSplit sep cs
    if c = sep then [] :: rest
    else
      match rest with
      | [] => [[c]]
      | f :: fs => (c :: f) :: fs

/-! ## Data model -/

/-- A JS cell value in a result row; `none` stands for `null`/`undefined`.
Underlying values are modelled as integers with their natural order. -/
def JSVal : Type := Option Int
deriving DecidableEq, Repr

/-- A result row: a JS object mapping column names to values
(`row[column]`), modelled as an association list. -/
def Row : Type := List (String × JSVal)
deriving DecidableEq, Repr

/-- JS property access `row[column]`: `undefined` (`none`) when the key is
absent, otherwise the stored value (which may itself be `null`). -/
def rowGet (r : Row) (c : String) : JSVal :=
  match List.lookup c r with
  | none => none
  | some v => v

/-- Interface `TableResult` from `lib/api`: one query's tabular output plus metadata. -/
structure TableResult where
  table_name : Option String
  query : String
  columns : List String
  rows : List Row
  row_count : Nat
  affected_rows : Nat
  execution_time_ms : Nat
deriving DecidableEq, Repr

/-- Interface `ExecuteQueryResponse` from `lib/api` (the fields the layout consumes). -/
structure ExecuteQueryResponse where
  success : Bool
  query : String
  execution_time_ms : Nat
  rows : List Row
  columns : List String
  row_count : Nat
  affected_rows : Nat
  error_message : Option String
  timestamp : String
deriving DecidableEq, Repr

/-- Conversation message role. -/
inductive Role where
  | user
  | assistant
deriving DecidableEq, Repr

/-- Interface `Message` in `sql-ide-layout.tsx`. -/
structure Message where
  id : String
  type : Role
  content : String
  timestamp : Nat
  execution_result : Option ExecuteQueryResponse
deriving DecidableEq, Repr

/-- Interface `TableTab` in `sql-ide-layout.tsx`: a pinned result tab. -/
structure TableTab where
  id : String
  title : String
  tableResult : TableResult
deriving DecidableEq, Repr

/-- The `useState` fields of `SqlIdeLayout` that its handlers read or write. -/
structure IdeState where
  hasQuery : Bool
  generatedQuery : String
  queryResults : Option ExecuteQueryResponse
  messages : List Message
  activeTab : String
  isExecuting : Bool
  tableTabs : List TableTab
deriving DecidableEq, Repr

/-! ## Handlers of `SqlIdeLayout` -/

/-- The pinned-tab id built in `handleOpenTableInNewTab`:
``table-${Date.now()}-${Math.random().toString(36).substr(2, 9)}``. -/
def mkTabId (now : Nat) (rand : String) : String :=
  "table-" ++ natToString now ++ "-" ++ rand

/-- Handler `handleOpenTableInNewTab`: appends a new pinned tab holding the passed
`TableResult` and switches the active tab to it.  The title falls back to
`Table <n+1>` when `table_name` is falsy (absent or empty). -/
def handleOpenTableInNewTab (s : IdeState) (tableResult : TableResult)
    (now : Nat) (rand : String) : IdeState :=
  let tabId := mkTabId now rand
  let newTab : TableTab :=
    { id := tabId
      title := jsOr tableResult.table_name
        ("Table " ++ natToString (s.tableTabs.length + 1))
      tableResult := tableResult }
  { s with tableTabs := s.tableTabs ++ [newTab], activeTab := tabId }

/-- Handler `handleCloseTableTab`: filters the tab out of the collection and, when the
closed tab was the active one, switches the selection to the `"table"`
(Results) tab. -/
def handleCloseTableTab (s : IdeState) (tabId : String) : IdeState :=
  let s1 := { s with tableTabs := s.tableTabs.filter (fun tab => tab.id ≠ tabId) }
  if s.activeTab = tabId then { s1 with activeTab := "table" } else s1

/-- Handler `handleClearConversation`: awaits the backend `clearConversation` call;
on success it clears the message log, the `hasQuery` flag, the generated
query and the query results; on failure the `catch` only logs to the console
and no state is touched. -/
def handleClearConversation (s : IdeState) (clearOutcome : Except String Unit) :
    IdeState :=
  match clearOutcome with
  | Except.ok _ =>
    { s with messages := [], hasQuery := false, generatedQuery := "",
             queryResults := none }
  | Except.error _ => s

/-- The error `ExecuteQueryResponse` synthesized in `handleDirectExecution`'s
`catch` block (`e` is the thrown error's message, `iso` the
`new Date().toISOString()` value). -/
def catchErrorResult (sql : String) (e : String) (iso : String) :
    ExecuteQueryResponse :=
  { success := false
    query := sql
    execution_time_ms := 0
    rows := []
    columns := []
    row_count := 0
    affected_rows := 0
    error_message := some e
    timestamp := iso }

/-- The assistant message `Query failed: <msg>` appended to the conversation
log, carrying the execution result. -/
def queryFailedMessage (now : Nat) (msg : String)
    (result : ExecuteQueryResponse) : Message :=
  { id := natToString now
    type := Role.assistant
    content := "Query failed: " ++ msg
    timestamp := now
    execution_result := some result }

/-- Handler `handleDirectExecution`: the handler behind the Execute button.  Its body
is one `try` block that first awaits `clearConversation(sessionId)` and then
awaits `executeQuery`; a throw from either call lands in the shared `catch`
block, which synthesizes an error result and appends an error message.  The
returned `Bool` records whether the `executeQuery` call was issued at all:
it is reached only after `clearConversation` resolved successfully.  On a
successful `executeQuery` resolution the results are stored, the Results tab
is activated, an assistant error message is appended only when the response
reports failure with a truthy `error_message`, and the generated query is
updated to the executed SQL.  `finally` resets `isExecuting`. -/
def handleDirectExecution (s : IdeState) (sql : String) (now : Nat)
    (iso : String) (clearOutcome : Except String Unit)
    (execOutcome : Except String ExecuteQueryResponse) : IdeState × Bool :=
  match clearOutcome with
  | Except.error e =>
    let errorResult := catchErrorResult sql e iso
    ({ s with queryResults := some errorResult
              activeTab := "table"
              messages := s.messages ++ [queryFailedMessage now e errorResult]
              isExecuting := false }, false)
  | Except.ok _ =>
    match execOutcome with
    | Except.error e =>
      let errorResult := catchErrorResult sql e iso
      ({ s with queryResults := some errorResult
                activeTab := "table"
                messages := s.messages ++ [queryFailedMessage now e errorResult]
                isExecuting := false }, true)
    | Except.ok result =>
      let withMsg :=
        match result.error_message with
        | some e =>
          if result.success = false ∧ e ≠ "" then
            s.messages ++ [queryFailedMessage now e result]
          else s.messages
        | none => s.messages
      ({ s with queryResults := some result
                activeTab := "table"
                messages := withMsg
                generatedQuery := sql
                isExecuting := false }, true)

/-! ## `TableDisplay`: sorting and pagination -/

/-- Sort direction of a column header (`"asc" | "desc"`; `none` at the
`SortState` level stands for the `null` third state). -/
inductive SortDir where
  | asc
  | desc
deriving DecidableEq, Repr

/-- The `sortColumn` / `sortDirection` pair of `useState` fields in
`TableDisplay`. -/
structure SortState where
  sortColumn : Option String
  sortDirection : Option SortDir
deriving DecidableEq, Repr

/-- Handler `handleSort`: clicking the same column cycles the direction
`asc → desc → null → asc` and clears the sort column when the direction was
`desc`; clicking a different column sets it with ascending direction. -/
def handleSort (st : SortState) (column : String) : SortState :=
  if st.sortColumn = some column then
    let newDirection : Option SortDir :=
      match st.sortDirection with
      | some SortDir.asc => some SortDir.desc
      | some SortDir.desc => none
      | none => some SortDir.asc
    let newColumn : Option String :=
      if st.sortDirection = some SortDir.desc then none else st.sortColumn
    { sortColumn := newColumn, sortDirection := newDirection }
  else
    { sortColumn := some column, sortDirection := some SortDir.asc }

/-- The comparator passed to `Array.prototype.sort` in `sortedRows`, over the
two cell values of the sort column: a `null`/`undefined` left value compares
after anything (`1`), a `null`/`undefined` right value before (`-1`);
otherwise natural `<` / `>` ordering on the underlying value, with the sign
flipped for descending. -/
def rowCompare [LinearOrder α] (dir : SortDir) (aVal bVal : Option α) : Int :=
  match aVal with
  | none => 1
  | some a =>
    match bVal with
    | none => -1
    | some b =>
      if a < b then (if dir = SortDir.asc then -1 else 1)
      else if a > b then (if dir = SortDir.asc then 1 else -1)
      else 0

/-- Derived `sortedRows`: the rows as displayed — the original `rows` untouched when
either sort field is unset, otherwise a (stable) sort of a copy of `rows`
under `rowCompare` on the sort column. -/
def sortedRows (rows : List Row) (st : SortState) : List Row :=
  match st.sortColumn, st.sortDirection with
  | some c, some d =>
    rows.mergeSort (fun a b => rowCompare d (rowGet a c) (rowGet b c) ≤ 0)
  | _, _ => rows

/-- Derived `totalPages = Math.ceil(tableResult.rows.length / pageSize)`. -/
def totalPages (numRows pageSize : Nat) : Nat :=
  (numRows + pageSize - 1) / pageSize

/-- Derived `paginatedRows = sortedRows.slice((currentPage - 1) * pageSize,
currentPage * pageSize)`. -/
def paginatedRows (rows : List Row) (currentPage pageSize : Nat) : List Row :=
  jsSlice rows ((currentPage - 1) * pageSize) (currentPage * pageSize)

/-! ## `QueryExecutionResults`: results view, error state, CSV export -/

/-- Interface `AIQueryResponse` as consumed by `QueryExecutionResults` (the fields its
`useEffect` and rendering read; optional fields are optional exactly where
the component guards with `|| fallback`). -/
structure AIQueryResponse where
  success : Bool
  columns : Option (List String)
  rows : Option (List Row)
  row_count : Option Nat
  affected_rows : Option Nat
  execution_time_ms : Option Nat
  error : Option String
  table_results : Option (List TableResult)
deriving DecidableEq, Repr

/-- Interface `QueryResult`: the formatted results held in the component's `results`
state (`rows` re-projected to arrays in column order). -/
structure QueryResult where
  columns : List String
  rows : List (List JSVal)
  totalRows : Nat
  executionTime : Nat
  affectedRows : Nat
  table_results : List TableResult
deriving DecidableEq, Repr

/-- Interface `QueryError`: the component's `error` state. -/
structure QueryError where
  message : String
deriving DecidableEq, Repr

/-- The `results` / `error` pair of `useState` fields in
`QueryExecutionResults`. -/
structure ResultsView where
  results : Option QueryResult
  error : Option QueryError
deriving DecidableEq, Repr

/-- The conversion of a successful `AIQueryResponse` into `QueryResult`
performed inside the component's `useEffect`. -/
def formatAiResults (r : AIQueryResponse) : QueryResult :=
  { columns := r.columns.getD []
    rows := (r.rows.getD []).map (fun row =>
      match r.columns with
      | some cols => cols.map (fun col => rowGet row col)
      | none => [])
    totalRows := r.row_count.getD 0
    executionTime := r.execution_time_ms.getD 0
    affectedRows := r.affected_rows.getD 0
    table_results := r.table_results.getD [] }

/-- The `useEffect` of `QueryExecutionResults` reacting to a new `aiResults`
prop: a successful outcome stores formatted results and clears the error; a
failed outcome stores the error (message defaulting to
`"Query execution failed"` when `error` is falsy) and clears the results;
no prop leaves the state alone. -/
def applyAiResults (v : ResultsView) (aiResults : Option AIQueryResponse) :
    ResultsView :=
  match aiResults with
  | none => v
  | some r =>
    if r.success then
      { results := some (formatAiResults r), error := none }
    else
      { results := none,
        error := some { message := jsOr r.error "Query execution failed" } }

/-- Handler `handleExport`: the CSV text built from the component's full (unsorted,
unpaginated) `results` — the comma-joined column names followed by one
comma-joined line per row, lines joined by newlines, values taken as-is
without any CSV escaping.  Columns and cells are character lists (strings);
a row's cells are the already-stringified values `row.join(",")` sees. -/
def handleExport (columns : List (List Char))
    (rows : List (List (List Char))) : List Char :=
  jsJoin '\n' (jsJoin ',' columns :: rows.map (jsJoin ','))

/-- Re-parsing an exported CSV text: split on newline, then each line on
comma (the round-trip reader described by the specification). -/
def parseCsv (csv : List Char) : List (List (List Char)) :=
  (jsSplit '\n' csv).map (jsSplit ',')

/-! ## Theorems -/

/-- C6: the explicit clear-conversation action (with the backend call
succeeding) resets the orchestrator to the `NoQuery` state and discards the
generated query, the query results and the message log, while leaving the
pinned-tab collection (and the active tab) unchanged. -/
theorem clear_conversation_resets_but_keeps_tabs (s : IdeState) :
    (handleClearConversation s (Except.ok ())).hasQuery = false ∧
    (handleClearConversation s (Except.ok ())).generatedQuery = "" ∧
    (handleClearConversation s (Except.ok ())).queryResults = none ∧
    (handleClearConversation s (Except.ok ())).messages = [] ∧
    (handleClearConversation s (Except.ok ())).tableTabs = s.tableTabs ∧
    (handleClearConversation s (Except.ok ())).activeTab = s.activeTab := by
  refine ⟨rfl, rfl, rfl, rfl, rfl, rfl⟩

/-- C10: when the backend `clearConversation` call throws, the clear handler
modifies no local state at all — the message log, the `hasQuery` flag, the
generated query, the results, the tabs and the selection are all exactly as
before, because the resets sit after the `await` inside the `try`. -/
theorem clear_conversation_failure_is_noop (s : IdeState) (e : String) :
    handleClearConversation s (Except.error e) = s := rfl

/-- C3: repeated clicks on one column header cycle the sort state
unsorted → ascending → descending → unsorted, so three consecutive clicks
starting from unsorted restore the original row order; clicking a different
column's header from any prior sort state sets ascending sort on the new
column and drops the prior column's sort. -/
theorem sort_tristate_cycle (c c2 : String) (st : SortState) (rows : List Row)
    (hdiff : st.sortColumn ≠ some c2) :
    handleSort { sortColumn := none, sortDirection := none } c
      = { sortColumn := some c, sortDirection := some SortDir.asc } ∧
    handleSort { sortColumn := some c, sortDirection := some SortDir.asc } c
      = { sortColumn := some c, sortDirection := some SortDir.desc } ∧
    handleSort { sortColumn := some c, sortDirection := some SortDir.desc } c
      = { sortColumn := none, sortDirection := none } ∧
    handleSort (handleSort (handleSort
        { sortColumn := none, sortDirection := none } c) c) c
      = { sortColumn := none, sortDirection := none } ∧
    sortedRows rows (handleSort (handleSort (handleSort
        { sortColumn := none, sortDirection := none } c) c) c) = rows ∧
    handleSort st c2 = { sortColumn := some c2, sortDirection := some SortDir.asc } := by
  refine ⟨by simp [handleSort], by simp [handleSort], by simp [handleSort],
    by simp [handleSort], by simp [handleSort, sortedRows],
    by simp [handleSort, hdiff]⟩

/-- Witness for C3 at a concrete column, state and row list. -/
theorem sort_tristate_cycle_witness :
    (( { sortColumn := none, sortDirection := none } : SortState).sortColumn
       ≠ some "b") ∧
    handleSort (handleSort (handleSort
        { sortColumn := none, sortDirection := none } "a") "a") "a"
      = { sortColumn := none, sortDirection := none } ∧
    handleSort { sortColumn := none, sortDirection := none } "b"
      = { sortColumn := some "b", sortDirection := some SortDir.asc } := by
  have h := sort_tristate_cycle "a" "b"
    { sortColumn := none, sortDirection := none } [] (by decide)
  exact ⟨by decide, h.2.2.2.1, h.2.2.2.2.2⟩

/-- C7: the sort comparator orders a `null`/`undefined` cell after every
non-null cell regardless of the direction, and orders non-null cells by
natural `<` / `>` comparison on the underlying value, flipped for
descending. -/
theorem comparator_nulls_last {α : Type} [LinearOrder α] (dir : SortDir)
    (a b : α) :
    rowCompare dir none (some b) = 1 ∧
    rowCompare dir (some a) none = -1 ∧
    (a < b → rowCompare SortDir.asc (some a) (some b) = -1) ∧
    (a < b → rowCompare SortDir.desc (some a) (some b) = 1) ∧
    (b < a → rowCompare SortDir.asc (some a) (some b) = 1) ∧
    (b < a → rowCompare SortDir.desc (some a) (some b) = -1) ∧
    (a = b → rowCompare dir (some a) (some b) = 0) := by
  refine ⟨rfl, rfl, ?_, ?_, ?_, ?_, ?_⟩
  · intro h; simp [rowCompare, h]
  · intro h; simp [rowCompare, h]
  · intro h; simp [rowCompare, h, not_lt_of_gt h, gt_iff_lt]
  · intro h; simp [rowCompare, h, not_lt_of_gt h, gt_iff_lt]
  · intro h; simp [rowCompare, h]

/-- Witness for C7 on integer cell values. -/
theorem comparator_nulls_last_witness :
    rowCompare SortDir.desc (none : Option Int) (some 5) = 1 ∧
    rowCompare SortDir.desc (some (5 : Int)) none = -1 ∧
    rowCompare SortDir.asc (some (3 : Int)) (some 7) = -1 ∧
    rowCompare SortDir.desc (some (3 : Int)) (some 7) = 1 := by
  have h := comparator_nulls_last (α := Int) SortDir.desc 3 7
  exact ⟨(comparator_nulls_last (α := Int) SortDir.desc 3 5).1,
    (comparator_nulls_last (α := Int) SortDir.desc 5 7).2.1,
    (comparator_nulls_last (α := Int) SortDir.asc 3 7).2.2.1 (by decide),
    h.2.2.2.1 (by decide)⟩

/-- Closing a tab whose id occurs once removes exactly one element. -/
lemma length_filter_close (l : List TableTab) (tabId : String)
    (h1 : (l.map TableTab.id).Nodup) (h2 : tabId ∈ l.map TableTab.id) :
    (l.filter (fun t => t.id ≠ tabId)).length = l.length - 1 := by
  induction l with
  | nil => simp at h2
  | cons t ts ih =>
    simp only [List.map_cons, List.nodup_cons] at h1
    obtain ⟨hnotin, hnd⟩ := h1
    by_cases hid : t.id = tabId
    · subst hid
      rw [List.filter_cons_of_neg (by simp), List.filter_eq_self.mpr]
      · simp
      · intro u hu
        simp only [ne_eq, decide_eq_true_eq]
        intro hEq
        exact hnotin (hEq ▸ List.mem_map_of_mem TableTab.id hu)
    · have h2' : tabId ∈ ts.map TableTab.id := by
        rcases List.mem_cons.mp h2 with h | h
        · exact absurd h.symm hid
        · exact h
      have hpos : 0 < ts.length := by
        rcases List.mem_map.mp h2' with ⟨u, hu, _⟩
        exact List.length_pos.mpr (List.ne_nil_of_mem hu)
      rw [List.filter_cons_of_pos (by simp [hid])]
      simp only [List.length_cons]
      rw [ih hnd h2']
      omega

/-- C5: closing a pinned tab removes exactly that tab from the collection
(assuming the session invariant that tab ids are unique); when the closed
tab was the active selection the selection falls back to the `"table"`
(Results) tab, otherwise it is unchanged — and the selection keeps referring
to an existing tab (`"code"`, `"table"` or a surviving pinned tab). -/
theorem close_tab_removes_and_falls_back (s : IdeState) (tabId : String)
    (hnodup : (s.tableTabs.map TableTab.id).Nodup)
    (hinv : s.activeTab = "code" ∨ s.activeTab = "table" ∨
            s.activeTab ∈ s.tableTabs.map TableTab.id) :
    ((handleCloseTableTab s tabId).tableTabs
       = s.tableTabs.filter (fun tab => tab.id ≠ tabId)) ∧
    (∀ t ∈ s.tableTabs, t.id ≠ tabId →
       t ∈ (handleCloseTableTab s tabId).tableTabs) ∧
    (∀ t ∈ (handleCloseTableTab s tabId).tableTabs,
       t ∈ s.tableTabs ∧ t.id ≠ tabId) ∧
    (tabId ∈ s.tableTabs.map TableTab.id →
       (handleCloseTableTab s tabId).tableTabs.length
         = s.tableTabs.length - 1) ∧
    (s.activeTab = tabId → (handleCloseTableTab s tabId).activeTab = "table") ∧
    (s.activeTab ≠ tabId →
       (handleCloseTableTab s tabId).activeTab = s.activeTab) ∧
    ((handleCloseTableTab s tabId).activeTab = "code" ∨
     (handleCloseTableTab s tabId).activeTab = "table" ∨
     (handleCloseTableTab s tabId).activeTab
       ∈ (handleCloseTableTab s tabId).tableTabs.map TableTab.id) := by
  have htabs : (handleCloseTableTab s tabId).tableTabs
      = s.tableTabs.filter (fun tab => tab.id ≠ tabId) := by
    unfold handleCloseTableTab
    by_cases h : s.activeTab = tabId <;> simp [h]
  refine ⟨htabs, ?_, ?_, ?_, ?_, ?_, ?_⟩
  · intro t ht hne
    rw [htabs]
    exact List.mem_filter.mpr ⟨ht, by simpa using hne⟩
  · intro t ht
    rw [htabs] at ht
    have := List.mem_filter.mp ht
    exact ⟨this.1, by simpa using this.2⟩
  · intro hmem
    rw [htabs]
    exact length_filter_close s.tableTabs tabId hnodup hmem
  · intro h
    unfold handleCloseTableTab
    simp [h]
  · intro h
    unfold handleCloseTableTab
    simp [h]
  · by_cases h : s.activeTab = tabId
    · right; left
      unfold handleCloseTableTab
      simp [h]
    · have hact : (handleCloseTableTab s tabId).activeTab = s.activeTab := by
        unfold handleCloseTableTab
        simp [h]
      rcases hinv with h1 | h1 | h1
      · left; rw [hact, h1]
      · right; left; rw [hact, h1]
      · right; right
        rw [hact, htabs]
        rcases List.mem_map.mp h1 with ⟨u, hu, hid⟩
        exact List.mem_map.mpr ⟨u,
          List.mem_filter.mpr ⟨hu, by simp [hid, h]⟩, hid⟩

/-- Witness for C5: a two-tab session; closing the active second tab. -/
theorem close_tab_removes_and_falls_back_witness :
    (handleCloseTableTab
      { hasQuery := true, generatedQuery := "SELECT 1", queryResults := none,
        messages := [], activeTab := "t2", isExecuting := false,
        tableTabs :=
          [{ id := "t1", title := "Table 1",
             tableResult :=
               { table_name := some "Table 1", query := "SELECT 1",
                 columns := [], rows := [], row_count := 0,
                 affected_rows := 0, execution_time_ms := 0 } },
           { id := "t2", title := "Table 2",
             tableResult :=
               { table_name := some "Table 2", query := "SELECT 2",
                 columns := [], rows := [], row_count := 0,
                 affected_rows := 0, execution_time_ms := 0 } }] }
      "t2").tableTabs.length = 2 - 1 ∧
    (handleCloseTableTab
      { hasQuery := true, generatedQuery := "SELECT 1", queryResults := none,
        messages := [], activeTab := "t2", isExecuting := false,
        tableTabs :=
          [{ id := "t1", title := "Table 1",
             tableResult :=
               { table_name := some "Table 1", query := "SELECT 1",
                 columns := [], rows := [], row_count := 0,
                 affected_rows := 0, execution_time_ms := 0 } },
           { id := "t2", title := "Table 2",
             tableResult :=
               { table_name := some "Table 2", query := "SELECT 2",
                 columns := [], rows := [], row_count := 0,
                 affected_rows := 0, execution_time_ms := 0 } }] }
      "t2").activeTab = "table" := by
  have h := close_tab_removes_and_falls_back
    { hasQuery := true, generatedQuery := "SELECT 1", queryResults := none,
      messages := [], activeTab := "t2", isExecuting := false,
      tableTabs :=
        [{ id := "t1", title := "Table 1",
           tableResult :=
             { table_name := some "Table 1", query := "SELECT 1",
               columns := [], rows := [], row_count := 0,
               affected_rows := 0, execution_time_ms := 0 } },
         { id := "t2", title := "Table 2",
           tableResult :=
             { table_name := some "Table 2", query := "SELECT 2",
               columns := [], rows := [], row_count := 0,
               affected_rows := 0, execution_time_ms := 0 } }] }
    "t2" (by decide) (by right; right; decide)
  exact ⟨h.2.2.2.1 (by decide), h.2.2.2.2.1 (by decide)⟩

/-- The page count covers all rows: `N ≤ P * totalPages N P`. -/
lemma le_mul_totalPages (N P : Nat) (hP : 0 < P) :
    N ≤ P * totalPages N P := by
  unfold totalPages
  have h := Nat.div_add_mod (N + P - 1) P
  have hr : (N + P - 1) % P < P := Nat.mod_lt _ hP
  generalize hx : P * ((N + P - 1) / P) = x at h
  omega

/-- All pages but the last are needed: `P * (totalPages N P - 1) < N` when
there is at least one row. -/
lemma mul_totalPages_pred_lt (N P : Nat) (hP : 0 < P) (hN : 0 < N) :
    P * (totalPages N P - 1) < N := by
  unfold totalPages
  have hq : 1 ≤ (N + P - 1) / P := by
    rw [Nat.le_div_iff_mul_le hP]
    omega
  obtain ⟨q, hq'⟩ : ∃ q, (N + P - 1) / P = q + 1 :=
    ⟨(N + P - 1) / P - 1, by omega⟩
  have h := Nat.div_add_mod (N + P - 1) P
  have hr : (N + P - 1) % P < P := Nat.mod_lt _ hP
  rw [hq'] at h ⊢
  rw [Nat.mul_succ] at h
  simp only [Nat.add_sub_cancel]
  generalize hx : P * q = x at h ⊢
  omega

/-- C9: for a result with `N` rows and page size `P > 0`, every page before
the last renders exactly `P` rows, the last page (page `totalPages`) renders
exactly `N - P * (totalPages - 1)` rows, and `totalPages` is exactly
`ceil(N / P)` (characterized by `N ≤ P * totalPages` together with
`P * (totalPages - 1) < N`). -/
theorem pagination_page_lengths (rows : List Row) (P p : Nat) (hP : 0 < P)
    (hp : 1 ≤ p) :
    (p < totalPages rows.length P → (paginatedRows rows p P).length = P) ∧
    (0 < rows.length → p = totalPages rows.length P →
       (paginatedRows rows p P).length
         = rows.length - P * (totalPages rows.length P - 1)) ∧
    (rows.length ≤ P * totalPages rows.length P) ∧
    (0 < rows.length → P * (totalPages rows.length P - 1) < rows.length) := by
  have hlen : (paginatedRows rows p P).length
      = min (p * P - (p - 1) * P) (rows.length - (p - 1) * P) := by
    unfold paginatedRows jsSlice
    rw [List.length_take, List.length_drop]
  obtain ⟨p', rfl⟩ : ∃ p', p = p' + 1 := ⟨p - 1, by omega⟩
  have hstep : (p' + 1) * P - p' * P = P := by
    rw [Nat.succ_mul]
    omega
  simp only [Nat.add_sub_cancel] at hlen
  rw [hstep] at hlen
  refine ⟨?_, ?_, le_mul_totalPages rows.length P hP,
    fun hN => mul_totalPages_pred_lt rows.length P hP hN⟩
  · intro hlt
    rw [hlen]
    have hle : p' + 1 ≤ totalPages rows.length P - 1 := by omega
    have hmul : (p' + 1) * P ≤ (totalPages rows.length P - 1) * P :=
      Nat.mul_le_mul_right P hle
    have hlast : P * (totalPages rows.length P - 1) < rows.length := by
      apply mul_totalPages_pred_lt rows.length P hP
      by_contra hzero
      have : rows.length = 0 := by omega
      rw [this] at hlt
      unfold totalPages at hlt
      have : (0 + P - 1) / P = 0 := Nat.div_eq_of_lt (by omega)
      omega
    rw [Nat.succ_mul] at hmul
    rw [Nat.mul_comm] at hlast
    generalize p' * P = x at hmul hlen ⊢
    generalize (totalPages rows.length P - 1) * P = y at hmul hlast
    omega
  · intro hN hEq
    rw [hlen]
    have hcov : rows.length ≤ P * totalPages rows.length P :=
      le_mul_totalPages rows.length P hP
    have hlast : P * (totalPages rows.length P - 1) < rows.length :=
      mul_totalPages_pred_lt rows.length P hP hN
    have h1 : totalPages rows.length P = p' + 1 := hEq.symm
    rw [h1] at hcov hlast ⊢
    rw [Nat.mul_succ] at hcov
    simp only [Nat.add_sub_cancel] at hlast ⊢
    rw [Nat.mul_comm P p'] at hcov hlast ⊢
    omega

/-- Witness for C9: 5 rows at page size 2 — pages of 2, 2 and 1 row. -/
theorem pagination_page_lengths_witness :
    (paginatedRows [[("a", some 1)], [("a", some 2)], [("a", some 3)],
        [("a", some 4)], [("a", some 5)]] 1 2).length = 2 ∧
    (paginatedRows [[("a", some 1)], [("a", some 2)], [("a", some 3)],
        [("a", some 4)], [("a", some 5)]] 3 2).length
      = 5 - 2 * (totalPages 5 2 - 1) := by
  have h1 := pagination_page_lengths
    [[("a", some 1)], [("a", some 2)], [("a", some 3)],
     [("a", some 4)], [("a", some 5)]] 2 1 (by decide) (by decide)
  have h3 := pagination_page_lengths
    [[("a", some 1)], [("a", some 2)], [("a", some 3)],
     [("a", some 4)], [("a", some 5)]] 2 3 (by decide) (by decide)
  exact ⟨h1.1 (by decide), h3.2.1 (by decide) (by decide)⟩

/-- C4: a failed execution outcome (with a non-empty error message) appends
exactly one assistant entry `Query failed: <msg>` to the conversation log,
and the results view stores the error state (no table, error set to the
message); a successful outcome appends nothing to the log and stores the
formatted table with no error. -/
theorem failed_outcome_error_handling (s : IdeState) (sql : String)
    (now : Nat) (iso : String) (r : ExecuteQueryResponse) (e : String)
    (v : ResultsView) (ai : AIQueryResponse) :
    (r.success = false → r.error_message = some e → e ≠ "" →
      (handleDirectExecution s sql now iso (Except.ok ())
          (Except.ok r)).1.messages
        = s.messages ++ [queryFailedMessage now e r] ∧
      (queryFailedMessage now e r).type = Role.assistant ∧
      (queryFailedMessage now e r).content = "Query failed: " ++ e) ∧
    (r.success = true →
      (handleDirectExecution s sql now iso (Except.ok ())
          (Except.ok r)).1.messages = s.messages) ∧
    (ai.success = false → ai.error = some e → e ≠ "" →
      applyAiResults v (some ai)
        = { results := none, error := some { message := e } }) ∧
    (ai.success = true →
      (applyAiResults v (some ai)).error = none ∧
      (applyAiResults v (some ai)).results = some (formatAiResults ai)) := by
  refine ⟨?_, ?_, ?_, ?_⟩
  · intro hf he hne
    refine ⟨?_, rfl, rfl⟩
    simp [handleDirectExecution, he, hf, hne]
  · intro hs
    cases hmsg : r.error_message with
    | none => simp [handleDirectExecution, hmsg]
    | some m => simp [handleDirectExecution, hmsg, hs]
  · intro hf he hne
    simp [applyAiResults, hf, he, jsOr, hne]
  · intro hs
    simp [applyAiResults, hs]

/-- Witness for C4: a failed response with message `syntax error` appends the
one assistant message, and the results view holds that error and no table. -/
theorem failed_outcome_error_handling_witness :
    (handleDirectExecution
      { hasQuery := true, generatedQuery := "SELEC 1", queryResults := none,
        messages := [], activeTab := "code", isExecuting := true,
        tableTabs := [] }
      "SELEC 1" 7 "2024-01-01" (Except.ok ())
      (Except.ok
        { success := false, query := "SELEC 1", execution_time_ms := 1,
          rows := [], columns := [], row_count := 0, affected_rows := 0,
          error_message := some "syntax error",
          timestamp := "2024-01-01" })).1.messages
      = [queryFailedMessage 7 "syntax error"
          { success := false, query := "SELEC 1", execution_time_ms := 1,
            rows := [], columns := [], row_count := 0, affected_rows := 0,
            error_message := some "syntax error",
            timestamp := "2024-01-01" }] ∧
    applyAiResults { results := none, error := none }
      (some
        { success := false, columns := none, rows := none, row_count := none,
          affected_rows := none, execution_time_ms := none,
          error := some "syntax error", table_results := none })
      = { results := none, error := some { message := "syntax error" } } := by
  have h := failed_outcome_error_handling
    { hasQuery := true, generatedQuery := "SELEC 1", queryResults := none,
      messages := [], activeTab := "code", isExecuting := true,
      tableTabs := [] }
    "SELEC 1" 7 "2024-01-01"
    { success := false, query := "SELEC 1", execution_time_ms := 1,
      rows := [], columns := [], row_count := 0, affected_rows := 0,
      error_message := some "syntax error", timestamp := "2024-01-01" }
    "syntax error" { results := none, error := none }
    { success := false, columns := none, rows := none, row_count := none,
      affected_rows := none, execution_time_ms := none,
      error := some "syntax error", table_results := none }
  exact ⟨((h.1 rfl rfl (by decide)).1.trans (by simp)),
    h.2.2.1 rfl rfl (by decide)⟩

/-- C1 counterexample: with a failing `clearConversation` call the
`executeQuery` call is NOT issued (the issued flag is `false`), even though
a successful execution response was available from the environment — the
two awaits share one `try`/`catch`, so the thrown clear error skips the
execute call. -/
theorem clear_failure_blocks_execution_cex :
    (handleDirectExecution
      { hasQuery := true, generatedQuery := "SELECT 1", queryResults := none,
        messages := [], activeTab := "code", isExecuting := true,
        tableTabs := [] }
      "SELECT 1" 3 "2024-01-01" (Except.error "network error")
      (Except.ok
        { success := true, query := "SELECT 1", execution_time_ms := 1,
          rows := [], columns := [], row_count := 0, affected_rows := 0,
          error_message := none, timestamp := "2024-01-01" })).2 = false := by
  rfl

/-- C1 (amended): the handler awaits `clearConversation` and issues
`executeQuery` exactly when the clear call succeeded; when the clear call
throws, the shared `catch` handler records an error result on the Results
tab and appends an assistant error message instead of executing — the
failure is surfaced, not tolerated silently. -/
theorem clear_must_succeed_before_execute (s : IdeState) (sql : String)
    (now : Nat) (iso : String) (clearOutcome : Except String Unit)
    (execOutcome : Except String ExecuteQueryResponse) :
    ((handleDirectExecution s sql now iso clearOutcome execOutcome).2 = true
       ↔ clearOutcome = Except.ok ()) ∧
    (∀ e, clearOutcome = Except.error e →
      (handleDirectExecution s sql now iso clearOutcome execOutcome).1
        = { s with queryResults := some (catchErrorResult sql e iso),
                   activeTab := "table",
                   messages := s.messages
                     ++ [queryFailedMessage now e (catchErrorResult sql e iso)],
                   isExecuting := false }) := by
  constructor
  · cases clearOutcome with
    | error e => simp [handleDirectExecution]
    | ok u =>
      cases u
      cases execOutcome with
      | error e => simp [handleDirectExecution]
      | ok r => simp [handleDirectExecution]
  · intro e he
    subst he
    rfl

/-- Witness for the amended C1 at a concrete failing clear call. -/
theorem clear_must_succeed_before_execute_witness :
    (handleDirectExecution
      { hasQuery := false, generatedQuery := "", queryResults := none,
        messages := [], activeTab := "code", isExecuting := true,
        tableTabs := [] }
      "SELECT 2" 5 "2024-02-02" (Except.error "boom")
      (Except.error "unreachable")).1
      = { hasQuery := false, generatedQuery := "",
          queryResults := some (catchErrorResult "SELECT 2" "boom" "2024-02-02"),
          messages := [queryFailedMessage 5 "boom"
            (catchErrorResult "SELECT 2" "boom" "2024-02-02")],
          activeTab := "table", isExecuting := false, tableTabs := [] } := by
  have h := (clear_must_succeed_before_execute
    { hasQuery := false, generatedQuery := "", queryResults := none,
      messages := [], activeTab := "code", isExecuting := true,
      tableTabs := [] }
    "SELECT 2" 5 "2024-02-02" (Except.error "boom")
    (Except.error "unreachable")).2 "boom" rfl
  exact h.trans rfl

/-- Splitting a separator-free string yields the single field. -/
lemma jsSplit_of_not_mem (sep : Char) (l : List Char) (h : sep ∉ l) :
    jsSplit sep l = [l] := by
  induction l with
  | nil => rfl
  | cons c cs ih =>
    have hc : ¬(c = sep) := fun hEq => h (by simp [hEq])
    have hcs : sep ∉ cs := fun hm => h (List.mem_cons_of_mem _ hm)
    simp only [jsSplit, if_neg hc, ih hcs]

/-- Splitting past a separator-free first field peels it off. -/
lemma jsSplit_append (sep : Char) (f t : List Char) (hf : sep ∉ f) :
    jsSplit sep (f ++ sep :: t) = f :: jsSplit sep t := by
  induction f with
  | nil => simp [jsSplit]
  | cons c cs ih =>
    have hc : ¬(c = sep) := fun hEq => hf (by simp [hEq])
    have hcs : sep ∉ cs := fun hm => hf (List.mem_cons_of_mem _ hm)
    simp only [List.cons_append, jsSplit, if_neg hc]
    rw [List.append_eq, ih hcs]

/-- Splitting undoes joining when the field list is nonempty and no field
contains the separator. -/
lemma jsSplit_jsJoin (sep : Char) (fields : List (List Char))
    (hne : fields ≠ []) (hfree : ∀ f ∈ fields, sep ∉ f) :
    jsSplit sep (jsJoin sep fields) = fields := by
  induction fields with
  | nil => exact absurd rfl hne
  | cons f rest ih =>
    cases rest with
    | nil =>
      simp only [jsJoin]
      exact jsSplit_of_not_mem sep f (hfree f (by simp))
    | cons g rest' =>
      rw [show jsJoin sep (f :: g :: rest')
            = f ++ sep :: jsJoin sep (g :: rest') from rfl]
      rw [jsSplit_append sep f _ (hfree f (by simp))]
      rw [ih (by simp) (fun x hx => hfree x (List.mem_cons_of_mem _ hx))]

/-- A character of a joined string is the separator or lies in some field. -/
lemma mem_jsJoin (sep : Char) (fields : List (List Char)) (x : Char)
    (hx : x ∈ jsJoin sep fields) : x = sep ∨ ∃ f ∈ fields, x ∈ f := by
  induction fields with
  | nil => simp [jsJoin] at hx
  | cons f rest ih =>
    cases rest with
    | nil =>
      right
      exact ⟨f, by simp, by simpa [jsJoin] using hx⟩
    | cons g rest' =>
      rw [show jsJoin sep (f :: g :: rest')
            = f ++ sep :: jsJoin sep (g :: rest') from rfl] at hx
      rcases List.mem_append.mp hx with h | h
      · right; exact ⟨f, by simp, h⟩
      · rcases List.mem_cons.mp h with h | h
        · left; exact h
        · rcases ih h with h | ⟨f', hf', hxf'⟩
          · left; exact h
          · right; exact ⟨f', List.mem_cons_of_mem _ hf', hxf'⟩

/-- Re-splitting each line of a joined row set restores the rows. -/
lemma map_jsSplit_jsJoin (rows : List (List (List Char)))
    (hrne : ∀ r ∈ rows, r ≠ [])
    (hrfree : ∀ r ∈ rows, ∀ f ∈ r, ',' ∉ f) :
    rows.map (fun r => jsSplit ',' (jsJoin ',' r)) = rows := by
  induction rows with
  | nil => rfl
  | cons r rest ih =>
    simp only [List.map_cons]
    rw [jsSplit_jsJoin ',' r (hrne r (by simp))
        (fun f hf => hrfree r (by simp) f hf)]
    rw [ih (fun x hx => hrne x (List.mem_cons_of_mem _ hx))
        (fun x hx => hrfree x (List.mem_cons_of_mem _ hx))]

/-- C8 counterexample: a cell containing a comma breaks the round trip —
exporting the single-row result with one column `c` and cell `a,b` and
re-parsing does NOT reproduce the original row (`a,b` comes back as two
fields `a` and `b`), because the export does no CSV escaping. -/
theorem csv_roundtrip_cex :
    parseCsv (handleExport [['c']] [[['a', ',', 'b']]])
      ≠ [[['c']], [['a', ',', 'b']]] := by
  decide

/-- C8 (amended): the export serializes the full row set as the comma-joined
header line plus one comma-joined line per row, values taken as-is, and the
split-on-newline-then-comma re-parse reproduces the columns and rows
*provided* the column list and every row are nonempty and no column name or
cell value contains a comma or a newline (the export does no escaping, so a
comma or newline inside a value breaks the round trip, as the
counterexample shows). -/
theorem csv_export_roundtrip (columns : List (List Char))
    (rows : List (List (List Char)))
    (hc : columns ≠ []) (hrne : ∀ r ∈ rows, r ≠ [])
    (hcfree : ∀ f ∈ columns, ',' ∉ f ∧ '\n' ∉ f)
    (hrfree : ∀ r ∈ rows, ∀ f ∈ r, ',' ∉ f ∧ '\n' ∉ f) :
    parseCsv (handleExport columns rows) = columns :: rows := by
  unfold parseCsv handleExport
  have hlines : ∀ line ∈ jsJoin ',' columns :: rows.map (jsJoin ','),
      '\n' ∉ line := by
    intro line hline
    rcases List.mem_cons.mp hline with h | h
    · subst h
      intro hmem
      rcases mem_jsJoin ',' columns '\n' hmem with h | ⟨f, hf, hxf⟩
      · exact absurd h (by decide)
      · exact (hcfree f hf).2 hxf
    · rcases List.mem_map.mp h with ⟨r, hr, rfl⟩
      intro hmem
      rcases mem_jsJoin ',' r '\n' hmem with h | ⟨f, hf, hxf⟩
      · exact absurd h (by decide)
      · exact (hrfree r hr f hf).2 hxf
  rw [jsSplit_jsJoin '\n' _ (by simp) hlines]
  rw [List.map_cons]
  congr 1
  · exact jsSplit_jsJoin ',' columns hc (fun f hf => (hcfree f hf).1)
  · rw [List.map_map]
    exact map_jsSplit_jsJoin rows hrne
      (fun r hr f hf => (hrfree r hr f hf).1)

/-- Witness for the amended C8 at a concrete two-column, two-row result. -/
theorem csv_export_roundtrip_witness :
    ([['i', 'd'], ['n', 'a', 'm', 'e']] : List (List Char)) ≠ [] ∧
    parseCsv (handleExport [['i', 'd'], ['n', 'a', 'm', 'e']]
        [[['1'], ['x']], [['2'], ['y']]])
      = [['i', 'd'], ['n', 'a', 'm', 'e']]
          :: [[['1'], ['x']], [['2'], ['y']]] := by
  refine ⟨by decide, ?_⟩
  exact csv_export_roundtrip [['i', 'd'], ['n', 'a', 'm', 'e']]
    [[['1'], ['x']], [['2'], ['y']]]
    (by decide) (by decide) (by decide) (by decide)

/-- A digit character (of a value below ten) is never a dash. -/
lemma digitChar_ne_dash : ∀ m, m < 10 → Nat.digitChar m ≠ '-' := by decide

/-- The decimal rendering of a natural number contains no dash. -/
lemma dash_not_mem_natToDigits (n : Nat) : '-' ∉ natToDigits n := by
  induction n using Nat.strong_induction_on with
  | _ n ih =>
    rw [natToDigits]
    split
    · next h =>
        simp only [List.mem_singleton]
        exact fun hEq => digitChar_ne_dash n h hEq.symm
    · next h =>
        intro hmem
        rcases List.mem_append.mp hmem with hm | hm
        · exact ih (n / 10) (Nat.div_lt_self (by omega) (by omega)) hm
        · have hlt : n % 10 < 10 := Nat.mod_lt _ (by omega)
          simp only [List.mem_singleton] at hm
          exact digitChar_ne_dash (n % 10) hlt hm.symm

/-- A string of the shape `left ++ "-" ++ right` with a dash-free left part
determines both parts (the first dash splits it uniquely). -/
lemma append_dash_cancel (l1 : List Char) :
    ∀ l2 m1 m2 : List Char, '-' ∉ l1 → '-' ∉ l2 →
      l1 ++ '-' :: m1 = l2 ++ '-' :: m2 → l1 = l2 ∧ m1 = m2 := by
  induction l1 with
  | nil =>
    intro l2 m1 m2 h1 h2 hEq
    cases l2 with
    | nil => simpa using hEq
    | cons c l2' =>
      simp only [List.nil_append, List.cons_append, List.cons.injEq] at hEq
      exact absurd (by simp [← hEq.1] : '-' ∈ c :: l2') h2
  | cons c l1' ih =>
    intro l2 m1 m2 h1 h2 hEq
    cases l2 with
    | nil =>
      simp only [List.cons_append, List.nil_append, List.cons.injEq] at hEq
      exact absurd (by simp [hEq.1]) h1
    | cons c2 l2' =>
      simp only [List.cons_append, List.cons.injEq] at hEq
      obtain ⟨rfl, htail⟩ := hEq
      have h1' : '-' ∉ l1' := fun hm => h1 (List.mem_cons_of_mem _ hm)
      have h2' : '-' ∉ l2' := fun hm => h2 (List.mem_cons_of_mem _ hm)
      obtain ⟨he1, he2⟩ := ih l2' m1 m2 h1' h2' htail
      exact ⟨by rw [he1], he2⟩

/-- The character-level shape of a pinned-tab id. -/
lemma mkTabId_data (n : Nat) (g : String) :
    (mkTabId n g).data
      = 't' :: 'a' :: 'b' :: 'l' :: 'e' :: '-'
          :: (natToDigits n ++ '-' :: g.data) := by
  unfold mkTabId natToString
  rw [String.data_append, String.data_append, String.data_append]
  have h1 : ("table-" : String).data = ['t', 'a', 'b', 'l', 'e', '-'] := rfl
  have h2 : ("-" : String).data = ['-'] := rfl
  rw [h1, h2]
  simp [List.append_assoc]

/-- Two pinned-tab ids built from distinct random suffixes are distinct,
whatever the timestamps: the timestamp part is dash-free, so the first dash
after the `table-` prefix splits the id unambiguously. -/
lemma mkTabId_ne (n1 n2 : Nat) (g1 g2 : String) (hg : g1 ≠ g2) :
    mkTabId n1 g1 ≠ mkTabId n2 g2 := by
  intro hEq
  have hdata := congrArg String.data hEq
  rw [mkTabId_data, mkTabId_data] at hdata
  simp only [List.cons.injEq, true_and] at hdata
  obtain ⟨-, hg'⟩ := append_dash_cancel (natToDigits n1) (natToDigits n2)
    g1.data g2.data (dash_not_mem_natToDigits n1)
    (dash_not_mem_natToDigits n2) hdata
  exact hg (String.ext hg')

/-- Closing a tab updates the collection by the same filter in both branches
of the active-tab check. -/
lemma closeTab_tableTabs (s : IdeState) (tabId : String) :
    (handleCloseTableTab s tabId).tableTabs
      = s.tableTabs.filter (fun tab => tab.id ≠ tabId) := by
  unfold handleCloseTableTab
  by_cases h : s.activeTab = tabId <;> simp [h]

/-- C2: opening a result in a new tab appends a pinned tab holding the
result value received at creation time (a snapshot: it is never rewritten by
later operations), with id `table-<timestamp>-<random suffix>`, and switches
the active selection to that id; two tabs opened with distinct random
suffixes have distinct ids, and closing either of the two tabs leaves the
other tab — with its original result data — in the collection. -/
theorem pinned_tab_snapshot_and_independence (s : IdeState)
    (r1 r2 : TableResult) (n1 n2 : Nat) (g1 g2 : String) (hg : g1 ≠ g2) :
    (handleOpenTableInNewTab s r1 n1 g1).activeTab = mkTabId n1 g1 ∧
    (handleOpenTableInNewTab s r1 n1 g1).tableTabs
      = s.tableTabs ++
        [{ id := mkTabId n1 g1,
           title := jsOr r1.table_name
             ("Table " ++ natToString (s.tableTabs.length + 1)),
           tableResult := r1 }] ∧
    mkTabId n1 g1 ≠ mkTabId n2 g2 ∧
    (handleCloseTableTab
        (handleOpenTableInNewTab (handleOpenTableInNewTab s r1 n1 g1)
          r2 n2 g2) (mkTabId n2 g2)).tableTabs
      = s.tableTabs.filter (fun tab => tab.id ≠ mkTabId n2 g2) ++
        [{ id := mkTabId n1 g1,
           title := jsOr r1.table_name
             ("Table " ++ natToString (s.tableTabs.length + 1)),
           tableResult := r1 }] ∧
    (∃ u, u.id = mkTabId n2 g2 ∧ u.tableResult = r2 ∧
      (handleCloseTableTab
          (handleOpenTableInNewTab (handleOpenTableInNewTab s r1 n1 g1)
            r2 n2 g2) (mkTabId n1 g1)).tableTabs
        = s.tableTabs.filter (fun tab => tab.id ≠ mkTabId n1 g1) ++ [u]) := by
  have hne := mkTabId_ne n1 n2 g1 g2 hg
  have hne' := mkTabId_ne n2 n1 g2 g1 (Ne.symm hg)
  refine ⟨rfl, rfl, hne, ?_, ?_⟩
  · rw [closeTab_tableTabs]
    simp [handleOpenTableInNewTab, List.filter_append, hne]
  · refine ⟨{ id := mkTabId n2 g2,
              title := jsOr r2.table_name
                ("Table " ++ natToString
                  ((handleOpenTableInNewTab s r1 n1 g1).tableTabs.length + 1)),
              tableResult := r2 }, rfl, rfl, ?_⟩
    rw [closeTab_tableTabs]
    simp [handleOpenTableInNewTab, List.filter_append, hne']

/-- Witness for C2: two tabs opened at the same timestamp with distinct
random suffixes get distinct ids, and the first open selects the new tab. -/
theorem pinned_tab_snapshot_and_independence_witness :
    ("a1b2c3d4e" : String) ≠ "f5g6h7i8j" ∧
    mkTabId 1700000000000 "a1b2c3d4e" ≠ mkTabId 1700000000000 "f5g6h7i8j" ∧
    (handleOpenTableInNewTab
      { hasQuery := true, generatedQuery := "SELECT 1", queryResults := none,
        messages := [], activeTab := "table", isExecuting := false,
        tableTabs := [] }
      { table_name := some "employees", query := "SELECT 1", columns := [],
        rows := [], row_count := 0, affected_rows := 0,
        execution_time_ms := 0 }
      1700000000000 "a1b2c3d4e").activeTab
      = mkTabId 1700000000000 "a1b2c3d4e" := by
  have h := pinned_tab_snapshot_and_independence
    { hasQuery := true, generatedQuery := "SELECT 1", queryResults := none,
      messages := [], activeTab := "table", isExecuting := false,
      tableTabs := [] }
    { table_name := some "employees", query := "SELECT 1", columns := [],
      rows := [], row_count := 0, affected_rows := 0,
      execution_time_ms := 0 }
    { table_name := some "departments", query := "SELECT 2", columns := [],
      rows := [], row_count := 0, affected_rows := 0,
      execution_time_ms := 0 }
    1700000000000 1700000000000 "a1b2c3d4e" "f5g6h7i8j" (by decide)
  exact ⟨by decide, h.2.2.1, h.1⟩

end AutoSQL
